import Mathlib

/-!
Shallow embedding of the transcription scripts of the `transcribe` repository
(`transcribe.py`, `transcribe_mp4.py`, `transcript_fw_mp4.py`,
`transcript_fw_mp4_opt.py`, `gpu_monitor.py`).

Conventions of the embedding:
* Python float arithmetic on segment timestamps is modelled by exact rational
  arithmetic over `ℚ`; `int(x)` is truncation toward zero, `x // y` is the
  floor of the quotient and `x % y` (for a positive right operand) is
  `x - y * floor (x / y)`, exactly as in Python on exact values.
* Files are modelled by the `String` of their accumulated contents; a
  `f.write(s)` call appends `s`.
* The NVML driver is modelled by the stream of answers it would give to the
  successive polls of the busy-wait loop; a raised `NVMLError` is one possible
  answer.
-/

/-- Python truncating conversion `int(q)` on an exact rational value:
truncation toward zero. -/
def ratTrunc (q : ℚ) : ℤ := if 0 ≤ q then ⌊q⌋ else -⌊-q⌋

/-- Python `%` on numbers, for a positive right operand:
`a % b = a - b * (a // b)` where `//` is flooring division. -/
def qmod (a b : ℚ) : ℚ := a - b * ⌊a / b⌋

/-- Python format `f"{n:02d}"` for a nonnegative integer: zero-pad to at
least two digits. -/
def pad2 (n : ℕ) : String := if n < 10 then "0" ++ toString n else toString n

/-- Python format `f"{n:03d}"` for a nonnegative integer: zero-pad to at
least three digits. -/
def pad3 (n : ℕ) : String :=
  if n < 10 then "00" ++ toString n
  else if n < 100 then "0" ++ toString n
  else toString n

/-- `ms_to_srt_time(milliseconds)` of `transcribe.py`, `transcribe_mp4.py`,
`transcript_fw_mp4.py` and `transcript_fw_mp4_opt.py` (the four copies are
textually identical).  All call sites pass a nonnegative integer number of
milliseconds. -/
def ms_to_srt_time (m : ℕ) : String :=
  let seconds : ℚ := (m : ℚ) / 1000
  -- hours = int(seconds // 3600); the floor division already yields an
  -- integer, so int() is the identity on it
  let hours : ℤ := ⌊seconds / 3600⌋
  -- minutes = int((seconds % 3600) // 60)
  let minutes : ℤ := ⌊qmod seconds 3600 / 60⌋
  -- secs = int(seconds % 60)
  let secs : ℤ := ratTrunc (qmod seconds 60)
  -- millis = int(milliseconds % 1000)
  let millis : ℕ := m % 1000
  pad2 hours.toNat ++ ":" ++ pad2 minutes.toNat ++ ":" ++ pad2 secs.toNat
    ++ "," ++ pad3 millis

/-- `ms_to_vtt_time(milliseconds)` of the same four scripts: the same four
components, printed as `HH:MM.mmm` when `hours > 0` (dropping the seconds)
and as `MM:SS.mmm` otherwise. -/
def ms_to_vtt_time (m : ℕ) : String :=
  let seconds : ℚ := (m : ℚ) / 1000
  let hours : ℤ := ⌊seconds / 3600⌋
  let minutes : ℤ := ⌊qmod seconds 3600 / 60⌋
  let secs : ℤ := ratTrunc (qmod seconds 60)
  let millis : ℕ := m % 1000
  if 0 < hours then
    pad2 hours.toNat ++ ":" ++ pad2 minutes.toNat ++ "." ++ pad3 millis
  else
    pad2 minutes.toNat ++ ":" ++ pad2 secs.toNat ++ "." ++ pad3 millis

/-! Arithmetic characterization of the four components. -/

theorem floorq_natCast_div (a b : ℕ) : ⌊(a : ℚ) / (b : ℚ)⌋ = (a / b : ℕ) := by
  have h : ((a : ℤ) : ℚ) = (a : ℚ) := by push_cast; rfl
  rw [← h, Rat.floor_intCast_div_natCast]
  exact (Int.natCast_div a b).symm

theorem hours_eq (m : ℕ) : (⌊((m : ℚ) / 1000) / 3600⌋).toNat = m / 3600000 := by
  have h : ((m : ℚ) / 1000) / 3600 = (m : ℚ) / ((3600000 : ℕ) : ℚ) := by
    rw [div_div]; norm_num
  rw [h, floorq_natCast_div m 3600000, Int.toNat_natCast]

theorem hours_nonneg (m : ℕ) : 0 ≤ ⌊((m : ℚ) / 1000) / 3600⌋ := by
  apply Int.floor_nonneg.2
  positivity

theorem qmod_3600 (m : ℕ) :
    qmod ((m : ℚ) / 1000) 3600 = ((m % 3600000 : ℕ) : ℚ) / 1000 := by
  unfold qmod
  have h : ((m : ℚ) / 1000) / 3600 = (m : ℚ) / ((3600000 : ℕ) : ℚ) := by
    rw [div_div]; norm_num
  rw [h, floorq_natCast_div m 3600000]
  have h2 : (3600000 : ℚ) * ((m / 3600000 : ℕ) : ℚ) + ((m % 3600000 : ℕ) : ℚ)
      = (m : ℚ) := by
    exact_mod_cast congrArg (Nat.cast (R := ℚ)) (Nat.div_add_mod m 3600000)
  rw [Int.cast_natCast]
  linarith

theorem qmod_60 (m : ℕ) :
    qmod ((m : ℚ) / 1000) 60 = ((m % 60000 : ℕ) : ℚ) / 1000 := by
  unfold qmod
  have h : ((m : ℚ) / 1000) / 60 = (m : ℚ) / ((60000 : ℕ) : ℚ) := by
    rw [div_div]; norm_num
  rw [h, floorq_natCast_div m 60000]
  have h2 : (60000 : ℚ) * ((m / 60000 : ℕ) : ℚ) + ((m % 60000 : ℕ) : ℚ)
      = (m : ℚ) := by
    exact_mod_cast congrArg (Nat.cast (R := ℚ)) (Nat.div_add_mod m 60000)
  rw [Int.cast_natCast]
  linarith

theorem minutes_eq (m : ℕ) :
    (⌊qmod ((m : ℚ) / 1000) 3600 / 60⌋).toNat = m / 60000 % 60 := by
  rw [qmod_3600]
  have h : ((m % 3600000 : ℕ) : ℚ) / 1000 / 60
      = ((m % 3600000 : ℕ) : ℚ) / ((60000 : ℕ) : ℚ) := by
    rw [div_div]; norm_num
  rw [h, floorq_natCast_div (m % 3600000) 60000, Int.toNat_natCast]
  omega

theorem secs_eq (m : ℕ) :
    (ratTrunc (qmod ((m : ℚ) / 1000) 60)).toNat = m / 1000 % 60 := by
  rw [qmod_60]
  unfold ratTrunc
  rw [if_pos (by positivity)]
  have h : ((m % 60000 : ℕ) : ℚ) / 1000
      = ((m % 60000 : ℕ) : ℚ) / ((1000 : ℕ) : ℚ) := by norm_num
  rw [h, floorq_natCast_div (m % 60000) 1000, Int.toNat_natCast]
  omega

/-- The SRT formatter prints exactly the components
`m / 3600000`, `m / 60000 % 60`, `m / 1000 % 60`, `m % 1000`. -/
theorem srt_time_eq (m : ℕ) :
    ms_to_srt_time m =
      pad2 (m / 3600000) ++ ":" ++ pad2 (m / 60000 % 60) ++ ":"
        ++ pad2 (m / 1000 % 60) ++ "," ++ pad3 (m % 1000) := by
  simp only [ms_to_srt_time, hours_eq, minutes_eq, secs_eq]

/-- The VTT formatter, characterized over natural-number arithmetic:
above one hour it prints hours and minutes only, below one hour it prints
minutes and seconds. -/
theorem vtt_time_eq (m : ℕ) :
    ms_to_vtt_time m =
      if 3600000 ≤ m then
        pad2 (m / 3600000) ++ ":" ++ pad2 (m / 60000 % 60) ++ "."
          ++ pad3 (m % 1000)
      else
        pad2 (m / 60000 % 60) ++ ":" ++ pad2 (m / 1000 % 60) ++ "."
          ++ pad3 (m % 1000) := by
  have hpos : 0 < ⌊((m : ℚ) / 1000) / 3600⌋ ↔ 3600000 ≤ m := by
    have heq := hours_eq m
    have h3 := hours_nonneg m
    constructor <;> intro h <;> omega
  simp only [ms_to_vtt_time, hours_eq, minutes_eq, secs_eq]
  by_cases h : 3600000 ≤ m
  · rw [if_pos (hpos.2 h), if_pos h]
  · rw [if_neg (fun hc => h (hpos.1 hc)), if_neg h]

/-!
The thermal-protection polling loop `check_gpu_and_pause` of
`transcript_fw_mp4_opt.py`.
-/

/-- One answer of the NVML polls of a loop iteration:
`nvmlDeviceGetTemperature(handle, NVML_TEMPERATURE_GPU)` and
`nvmlDeviceGetUtilizationRates(handle).gpu`. -/
structure Reading where
  temp : ℤ
  util : ℤ
deriving DecidableEq, Repr

/-- The loop guard `temp > temp_threshold and util.gpu > load_threshold`. -/
def exceeds (temp_threshold load_threshold : ℤ) (r : Reading) : Bool :=
  decide (temp_threshold < r.temp) && decide (load_threshold < r.util)

/-- What one iteration of NVML calls does: deliver a reading, or raise
`pynvml.NVMLError`.  An initialization failure (`nvmlInit` or
`nvmlDeviceGetHandleByIndex`) is an `nvmlError` before any reading. -/
inductive PollEvent where
  | reading (r : Reading)
  | nvmlError
deriving DecidableEq, Repr

/-- How a run of `check_gpu_and_pause` ended. -/
inductive LoopExit where
  /-- the `break` of the else branch: both thresholds no longer exceeded -/
  | normalBreak
  /-- an `NVMLError` caught by the except clause, which does `pass` -/
  | caughtError
  /-- the supplied finite event list ran out with the loop still going -/
  | stillRunning
deriving DecidableEq, Repr

/-- `check_gpu_and_pause(temp_threshold, load_threshold, pause_time)` of
`transcript_fw_mp4_opt.py`, run against a finite prefix of NVML poll
answers.  Returns the list of `time.sleep` durations performed, in order,
and how the loop ended.  An `NVMLError` raised at any call is caught by the
except clause and the function returns normally; the `nvmlShutdown` of the
finally block performs no sleep and is not modelled. -/
def check_gpu_and_pause (temp_threshold load_threshold : ℤ) (pause_time : ℕ) :
    List PollEvent → List ℕ × LoopExit
  | [] => ([], .stillRunning)
  | .nvmlError :: _ => ([], .caughtError)
  | .reading r :: rest =>
    if exceeds temp_threshold load_threshold r then
      -- logger.warning(...); time.sleep(pause_time); then re-poll
      let p := check_gpu_and_pause temp_threshold load_threshold pause_time rest
      (pause_time :: p.1, p.2)
    else ([], .normalBreak)

/-- The control flow of the `while True` poll loop of `check_gpu_and_pause`,
run against an infinite error-free stream `f` of readings with an explicit
amount of fuel: `pollRun _ _ f fuel i` returns `some j` when the loop,
polling readings `f i, f (i+1), ...`, reaches its break at reading `j`
within `fuel` iterations, and `none` when it is still sleeping and
re-polling after `fuel` iterations.  The `time.sleep(pause_time)` of the
taken branch does not affect control flow. -/
def pollRun (temp_threshold load_threshold : ℤ) (f : ℕ → Reading) :
    ℕ → ℕ → Option ℕ
  | 0, _ => none
  | fuel + 1, i =>
    if exceeds temp_threshold load_threshold (f i) then
      pollRun temp_threshold load_threshold f fuel (i + 1)
    else some i

/-- One-step unfolding of `pollRun` in the positive-fuel case. -/
theorem pollRun_succ (temp_threshold load_threshold : ℤ) (f : ℕ → Reading)
    (fuel i : ℕ) :
    pollRun temp_threshold load_threshold f (fuel + 1) i =
      if exceeds temp_threshold load_threshold (f i) then
        pollRun temp_threshold load_threshold f fuel (i + 1)
      else some i := rfl

theorem pollRun_none_of_all_exceed (temp_threshold load_threshold : ℤ)
    (f : ℕ → Reading)
    (h : ∀ k, exceeds temp_threshold load_threshold (f k) = true) :
    ∀ fuel i, pollRun temp_threshold load_threshold f fuel i = none := by
  intro fuel
  induction fuel with
  | zero => intro i; rfl
  | succ n ih => intro i; simp [pollRun, h i, ih]

theorem pollRun_break_not_exceed (temp_threshold load_threshold : ℤ)
    (f : ℕ → Reading) :
    ∀ fuel i j, pollRun temp_threshold load_threshold f fuel i = some j →
      exceeds temp_threshold load_threshold (f j) = false := by
  intro fuel
  induction fuel with
  | zero => intro i j h; simp [pollRun] at h
  | succ n ih =>
    intro i j h
    by_cases hx : exceeds temp_threshold load_threshold (f i)
    · exact ih (i + 1) j (by simpa [pollRun, hx] using h)
    · have hij : i = j := by simpa [pollRun, hx] using h
      subst hij
      simpa using hx

theorem pollRun_reaches (temp_threshold load_threshold : ℤ) (f : ℕ → Reading) :
    ∀ n i,
      (∀ j, j < n → exceeds temp_threshold load_threshold (f (i + j)) = true) →
      exceeds temp_threshold load_threshold (f (i + n)) = false →
      pollRun temp_threshold load_threshold f (n + 1) i = some (i + n) := by
  intro n
  induction n with
  | zero =>
    intro i _ hstop
    simp only [Nat.add_zero] at hstop
    simp [pollRun, hstop]
  | succ n ih =>
    intro i hall hstop
    have h0 : exceeds temp_threshold load_threshold (f i) = true := by
      simpa using hall 0 (Nat.succ_pos n)
    have hrec := ih (i + 1)
      (fun j hj => by
        simpa [show i + 1 + j = i + (j + 1) by omega] using
          hall (j + 1) (by omega))
      (by simpa [show i + 1 + n = i + (n + 1) by omega] using hstop)
    have harr : i + 1 + n = i + (n + 1) := by omega
    rw [harr] at hrec
    rw [pollRun_succ, if_pos h0]
    exact hrec

/-- Claim C1: run on any finite sequence of error-free readings,
`check_gpu_and_pause` sleeps `pause_time` once for each reading of the
maximal prefix in which both temperature and utilization strictly exceed
their thresholds, then breaks out (without sleeping) at the first reading
in which either quantity is at or below its threshold; a reading in which
only one of the two quantities exceeds its threshold therefore ends the
loop rather than causing a pause. -/
theorem C1_poll_loop (temp_threshold load_threshold : ℤ) (pause_time : ℕ)
    (rs : List Reading) :
    check_gpu_and_pause temp_threshold load_threshold pause_time
        (rs.map PollEvent.reading) =
      ((rs.takeWhile (exceeds temp_threshold load_threshold)).map
          (fun _ => pause_time),
        if rs.any (fun r => !(exceeds temp_threshold load_threshold r)) then
          LoopExit.normalBreak
        else LoopExit.stillRunning) ∧
    (∀ r : Reading, exceeds temp_threshold load_threshold r = false ↔
      (r.temp ≤ temp_threshold ∨ r.util ≤ load_threshold)) := by
  constructor
  · induction rs with
    | nil => rfl
    | cons r rest ih =>
      by_cases h : exceeds temp_threshold load_threshold r
      · simp [check_gpu_and_pause, List.takeWhile_cons, h, ih]
      · simp [check_gpu_and_pause, List.takeWhile_cons, h]
  · intro r
    simp only [exceeds, Bool.and_eq_false_iff, decide_eq_false_iff_not,
      not_lt]

/-- Claim C2: over an error-free infinite stream of readings, the poll loop
of `check_gpu_and_pause` terminates if and only if some reading is at or
below one of the thresholds; if every reading exceeds both thresholds the
loop never returns, whatever the fuel. -/
theorem C2_poll_termination (temp_threshold load_threshold : ℤ)
    (f : ℕ → Reading) :
    ((∃ k, exceeds temp_threshold load_threshold (f k) = false) ↔
      (∃ fuel, (pollRun temp_threshold load_threshold f fuel 0).isSome
        = true)) ∧
    ((∀ k, exceeds temp_threshold load_threshold (f k) = true) →
      ∀ fuel i, pollRun temp_threshold load_threshold f fuel i = none) := by
  constructor
  · constructor
    · intro hex
      have hstop := Nat.find_spec hex
      refine ⟨Nat.find hex + 1, ?_⟩
      have hall : ∀ j, j < Nat.find hex →
          exceeds temp_threshold load_threshold (f (0 + j)) = true := by
        intro j hj
        have := Nat.find_min hex hj
        simpa using this
      have hr := pollRun_reaches temp_threshold load_threshold f
        (Nat.find hex) 0 hall (by simpa using hstop)
      simp [hr]
    · rintro ⟨fuel, hs⟩
      obtain ⟨j, hj⟩ := Option.isSome_iff_exists.1 hs
      exact ⟨j, pollRun_break_not_exceed temp_threshold load_threshold f
        fuel 0 j hj⟩
  · intro hall fuel i
    exact pollRun_none_of_all_exceed temp_threshold load_threshold f
      hall fuel i

/-- Witness for C2, on the constant stream whose readings always exceed the
default thresholds: with fuel 5 the loop has not returned. -/
theorem C2_poll_termination_witness :
    pollRun 55 70 (fun _ => ⟨100, 100⟩) 5 0 = none :=
  (C2_poll_termination 55 70 (fun _ => ⟨100, 100⟩)).2 (fun _ => by decide) 5 0

/-- Claim C8: if an NVML call raises `NVMLError` after a (possibly empty)
run of readings that all exceed both thresholds, `check_gpu_and_pause`
returns normally through the except clause: no exception propagates, no
further sleep happens, and every later event is left unconsumed. -/
theorem C8_nvml_error_caught (temp_threshold load_threshold : ℤ)
    (pause_time : ℕ) (pre : List Reading) (rest : List PollEvent)
    (hpre : ∀ r ∈ pre, exceeds temp_threshold load_threshold r = true) :
    check_gpu_and_pause temp_threshold load_threshold pause_time
        (pre.map PollEvent.reading ++ PollEvent.nvmlError :: rest) =
      (pre.map (fun _ => pause_time), LoopExit.caughtError) := by
  induction pre with
  | nil => rfl
  | cons r tl ih =>
    have hr := hpre r (List.mem_cons_self r tl)
    simp [check_gpu_and_pause, hr,
      ih (fun x hx => hpre x (List.mem_cons_of_mem r hx))]

/-- Witness for C8: one exceeding reading, then an NVML failure; the
function has slept once and returns normally with a caught error. -/
theorem C8_nvml_error_caught_witness :
    check_gpu_and_pause 55 70 90
        ([Reading.mk 60 80].map PollEvent.reading
          ++ PollEvent.nvmlError :: []) =
      ([90], LoopExit.caughtError) :=
  C8_nvml_error_caught 55 70 90 [⟨60, 80⟩] [] (by decide)

/-!
Segments and the four output formats.
-/

/-- One transcription segment as returned by the wrapped model libraries:
a start time and an end time in seconds, and a text.  The Python attribute
`segment.end` is called `stop` here because `end` is reserved in Lean. -/
structure Segment where
  start : ℚ
  stop : ℚ
  text : String
deriving DecidableEq, Repr

/-- `int(t * 1000)`: a segment time converted to integer milliseconds by
truncation. -/
def msOf (t : ℚ) : ℤ := ratTrunc (t * 1000)

/-- The millisecond count handed to the `ms_to_*_time` formatters; segment
timestamps are nonnegative, so `int(t * 1000)` is a natural number. -/
def msNat (t : ℚ) : ℕ := (msOf t).toNat

/-- The TSV data row written for one segment:
`f"{start_ms}\t{end_ms}\t{text}\n"` with `text = segment.text.strip()`.
Python strip is modelled by `String.trim`. -/
def tsvLine (s : Segment) : String :=
  toString (msOf s.start) ++ "\t" ++ toString (msOf s.stop) ++ "\t"
    ++ s.text.trim ++ "\n"

/-- The SRT block written for subtitle number `i`:
`f"{i}\n{start_time} --> {end_time}\n{text}\n\n"`. -/
def srtBlock (i : ℕ) (s : Segment) : String :=
  toString i ++ "\n" ++ ms_to_srt_time (msNat s.start) ++ " --> "
    ++ ms_to_srt_time (msNat s.stop) ++ "\n" ++ s.text.trim ++ "\n\n"

/-- The VTT block written for one segment:
`f"{start_time} --> {end_time}\n{text}\n\n"`. -/
def vttBlock (s : Segment) : String :=
  ms_to_vtt_time (msNat s.start) ++ " --> " ++ ms_to_vtt_time (msNat s.stop)
    ++ "\n" ++ s.text.trim ++ "\n\n"

/-- `save_txt(segments, filename)` of `transcript_fw_mp4.py`: the final
contents of the file, one stripped text plus a space per segment. -/
def save_txt (segments : List Segment) : String :=
  segments.foldl (fun acc s => acc ++ (s.text.trim ++ " ")) ""

/-- `save_tsv(segments, filename)` of `transcript_fw_mp4.py` (and, segment
dictionaries instead of objects apart, of `transcribe.py` and
`transcribe_mp4.py`): the header row, then one data row per segment. -/
def save_tsv (segments : List Segment) : String :=
  segments.foldl (fun acc s => acc ++ tsvLine s) "start\tend\ttext\n"

/-- `save_srt(segments, filename)` of `transcript_fw_mp4.py`: one numbered
block per segment, numbering from 1 (`enumerate(segments, 1)`). -/
def save_srt (segments : List Segment) : String :=
  (List.enumFrom 1 segments).foldl (fun acc p => acc ++ srtBlock p.1 p.2) ""

/-- `save_vtt(segments, filename)` of `transcript_fw_mp4.py`: the `WEBVTT`
header, then one block per segment. -/
def save_vtt (segments : List Segment) : String :=
  segments.foldl (fun acc s => acc ++ vttBlock s) "WEBVTT\n\n"

/-- Concatenation of a list of strings, used to state the shape of the
generated files. -/
def strConcat : List String → String
  | [] => ""
  | s :: ss => s ++ strConcat ss

/-- Concatenation of a list of lists, used to state the shape of traces. -/
def listConcat {α : Type} : List (List α) → List α
  | [] => []
  | a :: rest => a ++ listConcat rest

theorem foldl_append_eq {α : Type} (g : α → String) :
    ∀ (l : List α) (acc : String),
      l.foldl (fun a x => a ++ g x) acc = acc ++ strConcat (l.map g) := by
  intro l
  induction l with
  | nil => intro acc; simp [strConcat, String.append_empty]
  | cons x xs ih =>
    intro acc
    simp only [List.foldl_cons, List.map_cons, strConcat, ih,
      String.append_assoc]

/-!
The incremental-writing main loop of `transcript_fw_mp4_opt.py`.
-/

/-- The four open output files of `transcript_fw_mp4_opt.py`, by their
accumulated contents. -/
structure Files where
  txt : String
  tsv : String
  srt : String
  vtt : String
deriving DecidableEq, Repr

/-- The observable actions of the main loop of `transcript_fw_mp4_opt.py`:
a call to `check_gpu_and_pause`, and the block of four writes for segment
number `i`. -/
inductive LoopAction where
  | gpuCheck
  | writeSeg (i : ℕ)
deriving DecidableEq, Repr

/-- One iteration of the `for i, segment in enumerate(segments, 1)` loop of
`transcript_fw_mp4_opt.py`: the thermal-protection check when the device
argument equals `"cuda"`, then the four incremental writes. -/
def optStep (device : String) (i : ℕ) (s : Segment)
    (st : Files × List LoopAction) : Files × List LoopAction :=
  (⟨st.1.txt ++ (s.text.trim ++ " "), st.1.tsv ++ tsvLine s,
      st.1.srt ++ srtBlock i s, st.1.vtt ++ vttBlock s⟩,
    st.2 ++ ((if device == "cuda" then [LoopAction.gpuCheck] else [])
      ++ [LoopAction.writeSeg i]))

/-- The loop itself, carried by the enumeration counter. -/
def optLoop (device : String) : ℕ → List Segment → Files × List LoopAction →
    Files × List LoopAction
  | _, [], st => st
  | i, s :: rest, st => optLoop device (i + 1) rest (optStep device i s st)

/-- The whole incremental-writing loop of `transcript_fw_mp4_opt.py`: the
TSV header and the `WEBVTT` header are written before the loop, the
numbering starts at 1, and no action has happened yet. -/
def optRun (device : String) (segments : List Segment) :
    Files × List LoopAction :=
  optLoop device 1 segments
    (⟨"", "start\tend\ttext\n", "", "WEBVTT\n\n"⟩, [])

theorem optLoop_eq (device : String) :
    ∀ (segs : List Segment) (i : ℕ) (st : Files × List LoopAction),
      optLoop device i segs st =
        (⟨st.1.txt ++ strConcat (segs.map (fun s => s.text.trim ++ " ")),
          st.1.tsv ++ strConcat (segs.map tsvLine),
          st.1.srt ++ strConcat ((List.enumFrom i segs).map
            (fun p => srtBlock p.1 p.2)),
          st.1.vtt ++ strConcat (segs.map vttBlock)⟩,
         st.2 ++ listConcat ((List.enumFrom i segs).map
            (fun p => (if device == "cuda" then [LoopAction.gpuCheck] else [])
              ++ [LoopAction.writeSeg p.1]))) := by
  intro segs
  induction segs with
  | nil =>
    intro i st
    simp [optLoop, strConcat, listConcat, String.append_empty,
      List.enumFrom]
  | cons s rest ih =>
    intro i st
    simp only [optLoop, optStep, ih, List.enumFrom, List.map_cons,
      strConcat, listConcat, String.append_assoc, List.append_assoc,
      List.cons_append, List.nil_append]

/-- Claim C3: for every device argument and every finite sequence of
segments, the four files produced by the incremental per-segment writes of
`transcript_fw_mp4_opt.py` end up byte-for-byte identical to the files
produced by the batch functions `save_txt`, `save_tsv`, `save_srt` and
`save_vtt` of `transcript_fw_mp4.py` on the same sequence. -/
theorem C3_incremental_refines_batch (device : String)
    (segments : List Segment) :
    (optRun device segments).1 =
      ⟨save_txt segments, save_tsv segments, save_srt segments,
        save_vtt segments⟩ := by
  simp only [optRun, optLoop_eq, save_txt, save_tsv, save_srt, save_vtt,
    foldl_append_eq]

/-- Claim C6: `save_tsv` writes exactly one header line `start`, `end`,
`text` separated by tabs, then one row per segment in input order, holding
the truncated millisecond start and end times (`int(t * 1000)`) and the
stripped segment text, separated by tabs. -/
theorem C6_save_tsv_shape (segments : List Segment) :
    save_tsv segments =
      "start\tend\ttext\n"
        ++ strConcat (segments.map (fun s =>
          toString (msOf s.start) ++ "\t" ++ toString (msOf s.stop) ++ "\t"
            ++ s.text.trim ++ "\n")) := by
  simp only [save_tsv, foldl_append_eq, tsvLine]

/-- The trace that claim C7 describes for the `"cuda"` device: exactly one
`check_gpu_and_pause` call immediately before the writes of each segment. -/
def cudaTrace : ℕ → List Segment → List LoopAction
  | _, [] => []
  | i, _ :: rest => LoopAction.gpuCheck :: LoopAction.writeSeg i :: cudaTrace (i + 1) rest

theorem cudaTrace_concat : ∀ (segs : List Segment) (i : ℕ),
    listConcat ((List.enumFrom i segs).map
      (fun p => [LoopAction.gpuCheck, LoopAction.writeSeg p.1])) = cudaTrace i segs := by
  intro segs
  induction segs with
  | nil => intro i; rfl
  | cons s rest ih =>
    intro i
    simp [List.enumFrom, listConcat, cudaTrace, ih]

theorem no_gpuCheck_in_writes : ∀ (segs : List Segment) (i : ℕ),
    LoopAction.gpuCheck ∉ listConcat ((List.enumFrom i segs).map
      (fun p => [LoopAction.writeSeg p.1])) := by
  intro segs
  induction segs with
  | nil => intro i; simp [listConcat, List.enumFrom]
  | cons s rest ih =>
    intro i
    simp [List.enumFrom, listConcat, ih]

/-- Claim C7: in the transcription loop of `transcript_fw_mp4_opt.py`,
`check_gpu_and_pause` is invoked exactly once, immediately before the
writes of each segment, when the device argument equals `"cuda"`, and is
never invoked during the loop for any other device value. -/
theorem C7_gpu_check_gating (device : String) (segments : List Segment) :
    (device = "cuda" → (optRun device segments).2 = cudaTrace 1 segments) ∧
    (device ≠ "cuda" → LoopAction.gpuCheck ∉ (optRun device segments).2) := by
  have h2 : (optRun device segments).2
      = listConcat ((List.enumFrom 1 segments).map
          (fun p => (if device == "cuda" then [LoopAction.gpuCheck] else [])
            ++ [LoopAction.writeSeg p.1])) := by
    simp only [optRun, optLoop_eq, List.nil_append]
  constructor
  · intro hdev
    subst hdev
    rw [h2]
    simp only [beq_self_eq_true, if_true, List.cons_append, List.nil_append]
    exact cudaTrace_concat segments 1
  · intro hdev
    rw [h2]
    have hne : (device == "cuda") = false := by
      simp [beq_eq_false_iff_ne, hdev]
    simp only [hne, if_false, List.nil_append]
    exact no_gpuCheck_in_writes segments 1

/-- Witness for C7: on a one-segment input, with device `"cuda"` the trace
is check-then-write, and with device `"cpu"` no check happens. -/
theorem C7_gpu_check_gating_witness :
    ((optRun "cuda" [⟨0, 0, ""⟩]).2 = cudaTrace 1 [⟨0, 0, ""⟩]) ∧
      (LoopAction.gpuCheck ∉ (optRun "cpu" [⟨0, 0, ""⟩]).2) :=
  ⟨(C7_gpu_check_gating "cuda" [⟨0, 0, ""⟩]).1 rfl,
    (C7_gpu_check_gating "cpu" [⟨0, 0, ""⟩]).2 (by decide)⟩

/-!
Claims about the timestamp formatters.
-/

/-- Claim C4: for every nonnegative integer `m`, `ms_to_srt_time m` prints
`HH:MM:SS,mmm` with `HH = m / 3600000` zero-padded to at least two digits,
`MM = m / 60000 mod 60`, `SS = m / 1000 mod 60` and `mmm = m mod 1000`,
each zero-padded, and the four printed components recombine to exactly
`m` milliseconds. -/
theorem C4_srt_components (m : ℕ) :
    ms_to_srt_time m =
      pad2 (m / 3600000) ++ ":" ++ pad2 (m / 60000 % 60) ++ ":"
        ++ pad2 (m / 1000 % 60) ++ "," ++ pad3 (m % 1000) ∧
    3600000 * (m / 3600000) + 60000 * (m / 60000 % 60)
      + 1000 * (m / 1000 % 60) + m % 1000 = m :=
  ⟨srt_time_eq m, by omega⟩

/-- Counterexample to claim C5 as stated: 3660000 ms (1h 01m 00s) and
3661000 ms (1h 01m 01s) print the same VTT timestamp, so the printed
fields cannot recombine to the input for both values: above one hour the
seconds are lost. -/
theorem C5_vtt_counterexample :
    ms_to_vtt_time 3660000 = ms_to_vtt_time 3661000 ∧
      (3660000 : ℕ) ≠ 3661000 := by
  refine ⟨?_, by decide⟩
  rw [vtt_time_eq, vtt_time_eq]
  norm_num

/-- Claim C5 as amended: below one hour the printed `MM:SS.mmm` fields of
`ms_to_vtt_time` recombine to exactly `m`, so no information is lost
there; at or above one hour the printed fields are `HH:MM.mmm`, the
seconds component is dropped, and the printed fields recombine only to
`m` minus its seconds part. -/
theorem C5_vtt_partial_roundtrip (m : ℕ) :
    (m < 3600000 →
      ms_to_vtt_time m =
        pad2 (m / 60000 % 60) ++ ":" ++ pad2 (m / 1000 % 60) ++ "."
          ++ pad3 (m % 1000) ∧
      60000 * (m / 60000 % 60) + 1000 * (m / 1000 % 60) + m % 1000 = m) ∧
    (3600000 ≤ m →
      ms_to_vtt_time m =
        pad2 (m / 3600000) ++ ":" ++ pad2 (m / 60000 % 60) ++ "."
          ++ pad3 (m % 1000) ∧
      3600000 * (m / 3600000) + 60000 * (m / 60000 % 60) + m % 1000
        = m - 1000 * (m / 1000 % 60)) := by
  constructor
  · intro h
    refine ⟨?_, by omega⟩
    rw [vtt_time_eq, if_neg (by omega)]
  · intro h
    refine ⟨?_, by omega⟩
    rw [vtt_time_eq, if_pos h]

/-- Witness for the amended C5, at 125250 ms (below one hour) and
7322001 ms (above one hour). -/
theorem C5_vtt_partial_roundtrip_witness :
    (ms_to_vtt_time 125250 =
        pad2 (125250 / 60000 % 60) ++ ":" ++ pad2 (125250 / 1000 % 60)
          ++ "." ++ pad3 (125250 % 1000) ∧
      60000 * (125250 / 60000 % 60) + 1000 * (125250 / 1000 % 60)
        + 125250 % 1000 = 125250) ∧
    (ms_to_vtt_time 7322001 =
        pad2 (7322001 / 3600000) ++ ":" ++ pad2 (7322001 / 60000 % 60)
          ++ "." ++ pad3 (7322001 % 1000) ∧
      3600000 * (7322001 / 3600000) + 60000 * (7322001 / 60000 % 60)
        + 7322001 % 1000 = 7322001 - 1000 * (7322001 / 1000 % 60)) :=
  ⟨(C5_vtt_partial_roundtrip 125250).1 (by decide),
    (C5_vtt_partial_roundtrip 7322001).2 (by decide)⟩

/-- Claim C10: `ms_to_vtt_time` is not injective: 65250 ms (below one
hour) and 3900250 ms (at or above one hour) both print `01:05.250`,
because the two format branches share the same two-field shape. -/
theorem C10_vtt_not_injective :
    ms_to_vtt_time 65250 = "01:05.250" ∧
      ms_to_vtt_time 3900250 = "01:05.250" ∧
      (65250 : ℕ) ≠ 3900250 ∧ 65250 < 3600000 ∧ 3600000 ≤ (3900250 : ℕ) := by
  refine ⟨?_, ?_, by decide, by decide, by decide⟩
  · rw [vtt_time_eq]
    decide
  · rw [vtt_time_eq]
    decide

/-!
Missing-input handling of the transcription scripts.
-/

/-- A single-quote character, as printed around the path in the error
message of the scripts. -/
def squote : String := String.singleton (Char.ofNat 39)

/-- `f"Error: File '{input_path}' not found!"`, the message printed by all
three scripts when the input path does not exist. -/
def errMsg (path : String) : String :=
  "Error: File " ++ squote ++ path ++ squote ++ " not found!"

/-- The observable process-level events of a script run that claim C9 is
about.  Everything after the existence check is abstracted to the events
relevant to the claim. -/
inductive Ev where
  | loadModel
  | print (s : String)
  | exitCode (c : ℕ)
  | mkdir (dir : String)
  | writeFile (name : String)
  | transcribe
deriving DecidableEq, Repr

/-- `main()` of `transcript_fw_mp4_opt.py` and of `transcript_fw_mp4.py`
after argument parsing (the two scripts have the same early structure):
the existence check, then `output_dir.mkdir(exist_ok=True)`, model
loading, transcription and the output writes.  The continuation on an
existing input is abstracted to representative events; on a missing input
the script prints the error and calls `sys.exit(1)`, reaching none of
them. -/
def fwMainEvents (inputExists : Bool) (path stem : String) : List Ev :=
  if inputExists = false then
    [Ev.print (errMsg path), Ev.exitCode 1]
  else
    [Ev.mkdir (stem ++ "_transcribed"), Ev.loadModel, Ev.transcribe,
      Ev.writeFile stem]

/-- The top level of `transcribe.py`: the model is loaded before the
input path is even read; then the existence check, and on a missing input
a print and `sys.exit(1)`.  This script never creates a directory. -/
def transcribeMainEvents (inputExists : Bool) (path : String) : List Ev :=
  Ev.loadModel ::
    (if inputExists = false then
      [Ev.print (errMsg path), Ev.exitCode 1]
    else [Ev.transcribe, Ev.writeFile path])

/-- Whether an event creates an output directory or writes an output
file. -/
def evIsOutput : Ev → Bool
  | Ev.mkdir _ => true
  | Ev.writeFile _ => true
  | _ => false

/-- Claim C9: when the given input path does not exist, each script prints
an error message naming the path and exits with status 1, creating no
output directory and writing no output file. -/
theorem C9_missing_input (path stem : String) :
    fwMainEvents false path stem
      = [Ev.print (errMsg path), Ev.exitCode 1] ∧
    transcribeMainEvents false path
      = [Ev.loadModel, Ev.print (errMsg path), Ev.exitCode 1] ∧
    (∃ a b, errMsg path = a ++ (path ++ b)) ∧
    (fwMainEvents false path stem).all (fun e => !(evIsOutput e)) = true ∧
    (transcribeMainEvents false path).all (fun e => !(evIsOutput e))
      = true := by
  refine ⟨rfl, rfl,
    ⟨"Error: File " ++ squote, squote ++ " not found!", ?_⟩, rfl, rfl⟩
  simp [errMsg, String.append_assoc]
